import Mathlib

/-!
A shallow embedding of `pulsar/utils/config.py` (settings registry,
validators, `Config` aggregation, CLI argument generation), together with
theorems settling the specification claims about it.

Conventions of the embedding:
* Python values that flow through settings are modelled by `PyVal`
  (`None`, `bool`, `int`, `str`, `list`, plain functions).  Byte strings and
  floats never flow through any claim and are left out.
* Fallible Python code is modelled with `Except PyErr _`; the constructors of
  `PyErr` mirror the exception classes raised by the source.
* Python truthiness is modelled explicitly (`pyTruthy`, `pyTruthyO`).
* `%s`-formatting of a value is modelled by `pyStr`; the memory-address part
  of a function's `str()` is elided since no theorem depends on it.
-/

/-- A primitive Python value, used as the element type of modelled lists.
No list value ever flows through the module (no setting has a list default and
`validate_list` is exported but unused there), so one level of element depth
is kept only so that `validate_list`'s type test is expressible. -/
inductive PyPrim where
  | none
  | bool (b : Bool)
  | int (n : Int)
  | str (s : String)
deriving DecidableEq, Repr

/-- A Python value as used by the configuration module.  `func` models a plain
Python function of the given name and positional arity (the module's default
hook callables such as `def_start_server`). -/
inductive PyVal where
  | none
  | bool (b : Bool)
  | int (n : Int)
  | str (s : String)
  | list (xs : List PyPrim)
  | func (fname : String) (arity : Nat)
deriving DecidableEq, Repr

/-- The exceptions raised by the source, by class, carrying the message
(for `KeyError` the missing key, for `NameError` the unbound name). -/
inductive PyErr where
  | attributeError (msg : String)
  | valueError (msg : String)
  | typeError (msg : String)
  | keyError (key : String)
  | nameError (missing : String)
deriving DecidableEq, Repr

/-- Python truthiness of a `PyVal`. -/
def pyTruthy : PyVal → Bool
  | .none => false
  | .bool b => b
  | .int n => n != 0
  | .str s => s != ""
  | .list xs => !xs.isEmpty
  | .func _ _ => true

/-- The characters stripped by Python's `str.strip()` with no argument
(ASCII fragment; no wider whitespace arises in the module). -/
def isPyWs (c : Char) : Bool :=
  c = ' ' || c = '\t' || c = '\n' || c = '\x0d' || c = '\x0b' || c = '\x0c'

/-- Python `str.strip()`: drop leading and trailing whitespace.  (Implemented
over the character list so that it reduces inside the kernel; core
`String.trim` is well-founded recursion and does not.) -/
def pyStrip (s : String) : String :=
  ⟨((s.data.dropWhile isPyWs).reverse.dropWhile isPyWs).reverse⟩

/-- Python `str.lower()` (ASCII fragment, which covers all strings in the
module and the claims). -/
def pyLowerChar (c : Char) : Char :=
  if 'A' ≤ c ∧ c ≤ 'Z' then Char.ofNat (c.toNat + 32) else c

/-- Python `str.lower()` over a whole string. -/
def pyLower (s : String) : String := ⟨s.data.map pyLowerChar⟩

/-- Python truthiness of an optional string (used for `setting.app`,
`self.action`, `self.meta`: `None` and `""` are falsy). -/
def pyTruthyO : Option String → Bool
  | Option.none => false
  | Option.some s => s ≠ ""

/-- `str(v)` as used by `"%s" % v` in the source's messages and help texts.
The address inside a function's rendering is elided (no theorem uses it). -/
def pyStr : PyVal → String
  | .none => "None"
  | .bool true => "True"
  | .bool false => "False"
  | .int n => toString n
  | .str s => s
  | .list _ => "<list>"
  | .func f _ => "<function " ++ f ++ ">"

/-- `repr(s)` for a string, as it appears in `int()` error messages
(escaping is irrelevant for the strings that arise here). -/
def pyRepr (s : String) : String := "'" ++ s ++ "'"

/-- Value of one digit character in the given base, if valid. -/
def digitVal (base : Nat) (c : Char) : Option Nat :=
  let v : Option Nat :=
    if '0' ≤ c ∧ c ≤ '9' then Option.some (c.toNat - 48)
    else if 'a' ≤ c ∧ c ≤ 'f' then Option.some (c.toNat - 87)
    else if 'A' ≤ c ∧ c ≤ 'F' then Option.some (c.toNat - 55)
    else Option.none
  match v with
  | Option.some n => if n < base then Option.some n else Option.none
  | Option.none => Option.none

/-- Value of a nonempty digit string in the given base, if every character is
a valid digit. -/
def digitsVal (base : Nat) (cs : List Char) : Option Nat :=
  match cs with
  | [] => Option.none
  | _ =>
    cs.foldl
      (fun acc c =>
        match acc, digitVal base c with
        | Option.some a, Option.some d => Option.some (a * base + d)
        | _, _ => Option.none)
      (Option.some 0)

/-- Python's `int(s, 0)` on a string: surrounding whitespace stripped, an
optional sign, then a `0x`/`0o`/`0b` base prefix, a run of zeros, or a decimal
numeral without leading zeros (Python 3 semantics; digit-group underscores are
not modelled, no claim exercises them). -/
def pyIntBase0 (s : String) : Except PyErr Int :=
  let t := (pyStrip s).data
  let signed : Int × List Char :=
    match t with
    | '+' :: r => (1, r)
    | '-' :: r => (-1, r)
    | r => (1, r)
  let mag : Option Nat :=
    match signed.2 with
    | '0' :: c :: ds =>
      if c = 'x' ∨ c = 'X' then digitsVal 16 ds
      else if c = 'o' ∨ c = 'O' then digitsVal 8 ds
      else if c = 'b' ∨ c = 'B' then digitsVal 2 ds
      else if (c :: ds).all (· = '0') then Option.some 0
      else Option.none
    | ['0'] => Option.some 0
    | r => digitsVal 10 r
  match mag with
  | Option.some m => Except.ok (signed.1 * (m : Int))
  | Option.none =>
    Except.error (.valueError ("invalid literal for int() with base 0: " ++ pyRepr s))

/-- `validate_bool` (config.py lines 311-321): a `bool` passes through; a
string passes if it lowercases and strips to `"true"`/`"false"`; any other
value is a `TypeError`. -/
def validate_bool : PyVal → Except PyErr PyVal
  | .bool b => Except.ok (.bool b)
  | .str s =>
    if pyStrip (pyLower s) = "true" then Except.ok (.bool true)
    else if pyStrip (pyLower s) = "false" then Except.ok (.bool false)
    else Except.error (.valueError ("Invalid boolean: " ++ s))
  | v => Except.error (.typeError ("Invalid type for casting: " ++ pyStr v))

/-- `validate_pos_int` (config.py lines 324-332): an `int` is taken as is, a
`bool` as 0/1 (booleans are ints), a string goes through `int(val, 0)`; any
other value hits `int`'s non-string `TypeError`.  A negative result is a
`ValueError` mentioning the converted value. -/
def validate_pos_int (v : PyVal) : Except PyErr PyVal := do
  let n : Int ←
    match v with
    | .bool b => Except.ok (if b then (1 : Int) else 0)
    | .int n => Except.ok n
    | .str s => pyIntBase0 s
    | _ => Except.error (.typeError "int() can't convert non-string with explicit base")
  if n < 0 then Except.error (.valueError ("Value must be positive: " ++ toString n))
  else Except.ok (.int n)

/-- `validate_string` (config.py lines 335-340): `None` passes through, a
string is stripped; anything else is a `TypeError`.  (Byte strings, also
admitted by `is_bytes_or_string`, never arise in the claims.) -/
def validate_string : PyVal → Except PyErr PyVal
  | .none => Except.ok .none
  | .str s => Except.ok (.str (pyStrip s))
  | v => Except.error (.typeError ("Not a string: " ++ pyStr v))

/-- `validate_list` (config.py lines 343-346): `if val and not isinstance(val,
list): raise` — so every list, and every *falsy* value of any type, is
returned unchanged; only truthy non-lists fail. -/
def validate_list (v : PyVal) : Except PyErr PyVal :=
  match v with
  | .list _ => Except.ok v
  | _ =>
    if pyTruthy v then Except.error (.typeError ("Not a list: " ++ pyStr v))
    else Except.ok v

/-- `validate_callable(arity)` (config.py lines 349-362), restricted to the
plain functions of the model: callable with the demanded positional arity, or
a `TypeError`.  (The `__call__`-object discount branch is never exercised by
the module's defaults.) -/
def validate_callable (arity : Nat) (v : PyVal) : Except PyErr PyVal :=
  match v with
  | .func _ a =>
    if a = arity then Except.ok v
    else Except.error (.typeError ("Value must have an arity of: " ++ toString arity))
  | _ => Except.error (.typeError ("Value is not callable: " ++ pyStr v))

/-- The validator actually stored on a registered setting class; the
metaclass wraps `attrs.get("validator", validate_string)` (config.py
line 226), so a class body without a validator gets `validate_string`. -/
inductive VKind where
  | vString
  | vBool
  | vPosInt
  | vList
  | vCallable (arity : Nat)
deriving DecidableEq, Repr

/-- Run the validator designated by a `VKind`. -/
def runValidator : VKind → PyVal → Except PyErr PyVal
  | .vString, v => validate_string v
  | .vBool, v => validate_bool v
  | .vPosInt, v => validate_pos_int v
  | .vList, v => validate_list v
  | .vCallable n, v => validate_callable n v

instance {ε α : Type} [DecidableEq ε] [DecidableEq α] : DecidableEq (Except ε α) :=
  fun a b =>
    match a, b with
    | .ok x, .ok y =>
      match decEq x y with
      | isTrue h => isTrue (by rw [h])
      | isFalse h => isFalse (fun hh => h (Except.ok.inj hh))
    | .error x, .error y =>
      match decEq x y with
      | isTrue h => isTrue (by rw [h])
      | isFalse h => isFalse (fun hh => h (Except.error.inj hh))
    | .ok _, .error _ => isFalse (fun hh => Except.noConfusion hh)
    | .error _, .ok _ => isFalse (fun hh => Except.noConfusion hh)

/-- `SERVER_NAME`, imported by config.py from the `pulsar` package (not under
the sources here).  Modelled from the spec: "a default process-name constant
supplied by the hosting process"; the concrete value is immaterial to every
claim, only that it is a string. -/
def SERVER_NAME : String := "Pulsar"

/-- The class body of one (non-virtual) `Setting` subclass, as written in the
source.  Field correspondence with the Python attributes: `sectionName` is
`section`, `validatorV` is `validator`, `typeV` is `type` (rendered as the
strings `"int"` / `"callable"` / `"string"`), `metaV` is `meta`, `actionV` is
`action`, `defaultV` is `default`, `nargsV` is `nargs`.  `short` is the first
line of the textwrap-dedented `desc` as computed by `SettingMeta.fmt_desc`
(config.py lines 235-239); it is carried directly since nothing downstream of
any claim depends on the rest of the description text.  A `name` of `""`
models Python `None` (both are falsy). -/
structure SettingDecl where
  name : String
  app : Option String := Option.none
  sectionName : String := ""
  cli : List String := []
  validatorV : Option VKind := Option.none
  typeV : Option String := Option.none
  metaV : Option String := Option.none
  actionV : Option String := Option.none
  defaultV : PyVal := PyVal.none
  short : String := ""
  nargsV : Option String := Option.none
deriving DecidableEq, Repr

/-- A registered setting class, i.e. the result of `SettingMeta.__new__` on a
declaration: the declaration order has been assigned
(`attrs["order"] = len(KNOWN_SETTINGS)`, line 225) and the validator has been
resolved (`wrap_method(attrs.get("validator", validate_string))`, line 226). -/
structure SettingCls where
  name : String
  app : Option String
  sectionName : String
  cli : List String
  validator : VKind
  typeV : Option String
  metaV : Option String
  actionV : Option String
  defaultV : PyVal
  short : String
  nargsV : Option String
  order : Nat
deriving DecidableEq, Repr

/-- The module-level registration state: `KNOWN_SETTINGS` (ordered list of
registered classes) and `KNOWN_SETTINGS_SET` (their names; kept as a
duplicate-free list in declaration order, only membership matters). -/
structure RegState where
  knownSettings : List SettingCls := []
  knownSet : List String := []
deriving DecidableEq, Repr

/-- The class produced by `SettingMeta.__new__` from a declaration once the
order has been fixed: `attrs["order"] = len(KNOWN_SETTINGS)` (line 225) and
`attrs["validator"] = wrap_method(attrs.get("validator", validate_string))`
(line 226). -/
def declToCls (d : SettingDecl) (order : Nat) : SettingCls :=
  { name := d.name, app := d.app, sectionName := d.sectionName, cli := d.cli,
    validator := d.validatorV.getD VKind.vString, typeV := d.typeV,
    metaV := d.metaV, actionV := d.actionV, defaultV := d.defaultV,
    short := d.short, nargsV := d.nargsV, order := order }

/-- `SettingMeta.__new__` for a non-virtual subclass (config.py lines
219-233): assign the next order, resolve the validator, append to
`KNOWN_SETTINGS`, and add a truthy name to `KNOWN_SETTINGS_SET`.  Note that
no name-collision check of any kind is performed. -/
def registerSetting (r : RegState) (d : SettingDecl) : RegState :=
  { knownSettings := r.knownSettings ++ [declToCls d r.knownSettings.length],
    knownSet :=
      if d.name ≠ "" then
        if d.name ∈ r.knownSet then r.knownSet else r.knownSet ++ [d.name]
      else r.knownSet }

/-- A `Setting` instance: the class data plus the current `value` (class
attribute `value = None` until `set` runs). -/
structure Setting where
  name : String
  app : Option String
  sectionName : String
  cli : List String
  validator : VKind
  typeV : Option String
  metaV : Option String
  actionV : Option String
  defaultV : PyVal
  short : String
  nargsV : Option String
  order : Nat
  value : PyVal := PyVal.none
deriving DecidableEq, Repr

/-- `Setting.get` (config.py lines 302-303). -/
def Setting.get (s : Setting) : PyVal := s.value

/-- `Setting.set` (config.py lines 305-308): run the validator on the raw
value and store its output.  The `hasattr(self.validator, '__call__')` guard
cannot fire for a registered setting, whose validator is always the function
produced by `wrap_method`; the model therefore has no `"Invalid validator"`
branch. -/
def Setting.set (s : Setting) (val : PyVal) : Except PyErr Setting :=
  match runValidator s.validator val with
  | Except.ok v => Except.ok { s with value := v }
  | Except.error e => Except.error e

/-- `Setting.copy` (config.py lines 299-300): `copy.copy(self)` hands out an
independent instance; in the pure embedding that is the value itself. -/
def Setting.copy (s : Setting) : Setting := s

/-- `Setting.__init__` (config.py lines 268-272): instantiate a registered
class; if the default is not `None`, run `set` on it (which can raise).  The
`short`/`desc` fixups concern only description text. -/
def mkInstance (c : SettingCls) : Except PyErr Setting :=
  let s0 : Setting :=
    { name := c.name, app := c.app, sectionName := c.sectionName, cli := c.cli,
      validator := c.validator, typeV := c.typeV, metaV := c.metaV,
      actionV := c.actionV, defaultV := c.defaultV, short := c.short,
      nargsV := c.nargsV, order := c.order, value := PyVal.none }
  if c.defaultV ≠ PyVal.none then s0.set c.defaultV else Except.ok s0

/-- Insertion into a Python dict modelled as an association list: an existing
key keeps its (first-insertion) position and gets the new value, a new key is
appended.  This matches dict iteration order, which `make_options` and
`Config.parser` rely on. -/
def alInsert {α : Type} : List (String × α) → String → α → List (String × α)
  | [], k, v => [(k, v)]
  | (k', v') :: rest, k, v =>
    if k' = k then (k', v) :: rest else (k', v') :: alInsert rest k v

/-- Python dict lookup on the association-list model. -/
def alLookup {α : Type} : List (String × α) → String → Option α
  | [], _ => Option.none
  | (k', v') :: rest, k => if k' = k then Option.some v' else alLookup rest k

/-- The settings dictionary built by `make_settings`. -/
abbrev SDict := List (String × Setting)

/-- The three `continue` filters of the `make_settings` loop (config.py lines
81-86), combined into "the setting is kept": the setting's app is falsy or
equal to the requested app; if `include` is truthy the name must be in it
unless the setting is app-scoped; the name must not be in `exclude`. -/
def keepSetting (app : Option String) (inc exc : List String) (s : Setting) : Bool :=
  !(pyTruthyO s.app && s.app != app) &&
  !(!inc.isEmpty && !(inc.contains s.name) && !(pyTruthyO s.app)) &&
  !(exc.contains s.name)

/-- The `for s in KNOWN_SETTINGS` loop of `make_settings` (config.py lines
79-87): each class is instantiated first (so a failing default validator
raises regardless of the filters), then the filters run, then a copy is
stored under the setting's name. -/
def msLoop (app : Option String) (inc exc : List String) :
    List SettingCls → SDict → Except PyErr SDict
  | [], acc => Except.ok acc
  | c :: rest, acc =>
    match mkInstance c with
    | Except.error e => Except.error e
    | Except.ok s =>
      msLoop app inc exc rest
        (if keepSetting app inc exc s then alInsert acc s.name s.copy else acc)

/-- `make_settings(app, include, exclude)` (config.py lines 69-88).  A Python
`include`/`exclude` of `None` is modelled by `[]` (`exclude = exclude or ()`
and the truthiness test on `include` make the two indistinguishable). -/
def make_settings (r : RegState) (app : Option String) (inc exc : List String) :
    Except PyErr SDict :=
  msLoop app inc exc r.knownSettings []

/-- `ConfigFile` (config.py lines 365-377). -/
def declConfigFile : SettingDecl :=
  { name := "config", sectionName := "Config File", cli := ["-c", "--config"],
    metaV := Option.some "FILE", validatorV := Option.some VKind.vString,
    defaultV := PyVal.str "config.py",
    short := "The path to a Pulsar config file." }

/-- `Workers` (config.py lines 380-392). -/
def declWorkers : SettingDecl :=
  { name := "workers", sectionName := "Worker Processes", cli := ["-w", "--workers"],
    validatorV := Option.some VKind.vPosInt, typeV := Option.some "int",
    defaultV := PyVal.int 1,
    short := "The number of worker process for handling requests." }

/-- `Concurrency` (config.py lines 395-402); no `validator` in the class body,
so registration resolves it to `validate_string`. -/
def declConcurrency : SettingDecl :=
  { name := "concurrency", sectionName := "Worker Processes", cli := ["--concurrency"],
    defaultV := PyVal.str "process",
    short := "The type of concurrency to use: ``process`` or ``thread``." }

/-- `MaxRequests` (config.py lines 405-421). -/
def declMaxRequests : SettingDecl :=
  { name := "max_requests", sectionName := "Worker Processes", cli := ["--max-requests"],
    validatorV := Option.some VKind.vPosInt, typeV := Option.some "int",
    defaultV := PyVal.int 0,
    short := "The maximum number of requests a worker will process before restarting." }

/-- `Timeout` (config.py lines 424-438). -/
def declTimeout : SettingDecl :=
  { name := "timeout", sectionName := "Worker Processes", cli := ["-t", "--timeout"],
    validatorV := Option.some VKind.vPosInt, typeV := Option.some "int",
    defaultV := PyVal.int 30,
    short := "Workers silent for more than this many seconds are killed and restarted." }

/-- `Keepalive` (config.py lines 441-452). -/
def declKeepalive : SettingDecl :=
  { name := "keepalive", sectionName := "Worker Processes", cli := ["--keep-alive"],
    validatorV := Option.some VKind.vPosInt, typeV := Option.some "int",
    defaultV := PyVal.int 2,
    short := "The number of seconds to wait for requests on a Keep-Alive connection." }

/-- `HttpProxyServer` (config.py lines 455-462); validator defaults to
`validate_string`. -/
def declHttpProxyServer : SettingDecl :=
  { name := "http_proxy", sectionName := "Http Client", cli := ["--http-proxy"],
    defaultV := PyVal.str "",
    short := "The HTTP proxy server to use with HttpClient." }

/-- `Debug` (config.py lines 465-477). -/
def declDebug : SettingDecl :=
  { name := "debug", sectionName := "Debugging", cli := ["--debug"],
    validatorV := Option.some VKind.vBool, actionV := Option.some "store_true",
    defaultV := PyVal.bool false,
    short := "Turn on debugging in the server." }

/-- `Daemon` (config.py lines 480-492). -/
def declDaemon : SettingDecl :=
  { name := "daemon", sectionName := "Server Mechanics", cli := ["-D", "--daemon"],
    validatorV := Option.some VKind.vBool, actionV := Option.some "store_true",
    defaultV := PyVal.bool false,
    short := "Daemonize the Pulsar process." }

/-- `Pidfile` (config.py lines 495-506). -/
def declPidfile : SettingDecl :=
  { name := "pidfile", sectionName := "Server Mechanics", cli := ["-p", "--pid"],
    metaV := Option.some "FILE", validatorV := Option.some VKind.vString,
    defaultV := PyVal.none,
    short := "A filename to use for the PID file." }

/-- `User` (config.py lines 509-522). -/
def declUser : SettingDecl :=
  { name := "user", sectionName := "Server Mechanics", cli := ["-u", "--user"],
    metaV := Option.some "USER", validatorV := Option.some VKind.vString,
    defaultV := PyVal.none,
    short := "Switch worker processes to run as this user." }

/-- `Group` (config.py lines 525-538). -/
def declGroup : SettingDecl :=
  { name := "group", sectionName := "Server Mechanics", cli := ["-g", "--group"],
    metaV := Option.some "GROUP", validatorV := Option.some VKind.vString,
    defaultV := PyVal.none,
    short := "Switch worker process to run as this group." }

/-- `Umask` (config.py lines 541-556). -/
def declUmask : SettingDecl :=
  { name := "umask", sectionName := "Server Mechanics", cli := ["-m", "--umask"],
    validatorV := Option.some VKind.vPosInt, typeV := Option.some "int",
    defaultV := PyVal.int 0,
    short := "A bit mask for the file mode on files written by Gunicorn." }

/-- `TmpUploadDir` (config.py lines 559-573): no `cli` and no `nargs`, so it
contributes no CLI argument. -/
def declTmpUploadDir : SettingDecl :=
  { name := "tmp_upload_dir", sectionName := "Server Mechanics",
    metaV := Option.some "DIR", validatorV := Option.some VKind.vString,
    defaultV := PyVal.none,
    short := "Directory to store temporary request data as they are read." }

/-- `Loglevel` (config.py lines 576-592). -/
def declLoglevel : SettingDecl :=
  { name := "loglevel", sectionName := "Logging", cli := ["--log-level"],
    metaV := Option.some "LEVEL", validatorV := Option.some VKind.vString,
    defaultV := PyVal.str "info",
    short := "The granularity of log outputs." }

/-- `LogEvery` (config.py lines 595-601); note: no `type` attribute. -/
def declLogEvery : SettingDecl :=
  { name := "logevery", sectionName := "Logging", cli := ["--log-every"],
    validatorV := Option.some VKind.vPosInt,
    defaultV := PyVal.int 0,
    short := "Log information every n seconds" }

/-- `LogConfig` (config.py lines 604-612): config-file-only (no `cli`);
validator defaults to `validate_string`. -/
def declLogConfig : SettingDecl :=
  { name := "logconfig", sectionName := "Logging",
    defaultV := PyVal.none,
    short := "The logging configuration dictionary." }

/-- `Procname` (config.py lines 615-631). -/
def declProcname : SettingDecl :=
  { name := "proc_name", sectionName := "Process Naming", cli := ["-n", "--name"],
    metaV := Option.some "STRING", validatorV := Option.some VKind.vString,
    defaultV := PyVal.none,
    short := "A base to use with setproctitle for process naming." }

/-- `DefaultProcName` (config.py lines 634-641). -/
def declDefaultProcName : SettingDecl :=
  { name := "default_proc_name", sectionName := "Process Naming",
    validatorV := Option.some VKind.vString,
    defaultV := PyVal.str SERVER_NAME,
    short := "Internal setting that is adjusted for each type of application." }

/-- `WhenReady` (config.py lines 644-654). -/
def declWhenReady : SettingDecl :=
  { name := "when_ready", sectionName := "Server Hooks",
    validatorV := Option.some (VKind.vCallable 1), typeV := Option.some "callable",
    defaultV := PyVal.func "def_start_server" 1,
    short := "Called just after the server is started." }

/-- `Prefork` (config.py lines 657-668). -/
def declPrefork : SettingDecl :=
  { name := "pre_fork", sectionName := "Server Hooks",
    validatorV := Option.some (VKind.vCallable 1), typeV := Option.some "callable",
    defaultV := PyVal.func "default_process" 1,
    short := "Called just before a worker is forked." }

/-- `Postfork` (config.py lines 671-682). -/
def declPostfork : SettingDecl :=
  { name := "post_fork", sectionName := "Server Hooks",
    validatorV := Option.some (VKind.vCallable 1), typeV := Option.some "callable",
    defaultV := PyVal.func "default_process" 1,
    short := "Called just after a worker has been forked." }

/-- `PreExec` (config.py lines 685-695). -/
def declPreExec : SettingDecl :=
  { name := "pre_exec", sectionName := "Server Hooks",
    validatorV := Option.some (VKind.vCallable 1), typeV := Option.some "callable",
    defaultV := PyVal.func "def_pre_exec" 1,
    short := "Called just before a new master process is forked." }

/-- `PreRequest` (config.py lines 698-709). -/
def declPreRequest : SettingDecl :=
  { name := "pre_request", sectionName := "Server Hooks",
    validatorV := Option.some (VKind.vCallable 2), typeV := Option.some "callable",
    defaultV := PyVal.func "def_pre_request" 2,
    short := "Called just before a worker processes the request." }

/-- `PostRequest` (config.py lines 712-723). -/
def declPostRequest : SettingDecl :=
  { name := "post_request", sectionName := "Server Hooks",
    validatorV := Option.some (VKind.vCallable 2), typeV := Option.some "callable",
    defaultV := PyVal.func "def_post_request" 2,
    short := "Called after a worker processes the request." }

/-- `WorkerExit` (config.py lines 726-737). -/
def declWorkerExit : SettingDecl :=
  { name := "worker_exit", sectionName := "Server Hooks",
    validatorV := Option.some (VKind.vCallable 1), typeV := Option.some "callable",
    defaultV := PyVal.func "def_worker_exit" 1,
    short := "Called just after a worker has been exited." }

/-- All non-virtual `Setting` subclasses of config.py, in source declaration
order (the order in which `SettingMeta.__new__` runs). -/
def moduleDecls : List SettingDecl :=
  [declConfigFile, declWorkers, declConcurrency, declMaxRequests, declTimeout,
   declKeepalive, declHttpProxyServer, declDebug, declDaemon, declPidfile,
   declUser, declGroup, declUmask, declTmpUploadDir, declLoglevel,
   declLogEvery, declLogConfig, declProcname, declDefaultProcName,
   declWhenReady, declPrefork, declPostfork, declPreExec, declPreRequest,
   declPostRequest, declWorkerExit]

/-- The module's registration state after import: every declaration has been
registered in order. -/
def moduleReg : RegState := moduleDecls.foldl registerSetting {}

/-- The module-level global `KNOWN_SETTINGS_SET` after import. -/
def knownSettingsSet : List String := moduleReg.knownSet

/-- `pulsar.__version__`, imported by config.py from the hosting package.
Modelled from the spec: "a version string ... supplied by the hosting
process"; only its presence on the version flag matters. -/
def pulsarVersion : String := "0.1"

/-- Python `x or default` for the optional string arguments of
`Config.__init__` (an empty string is falsy and also falls back). -/
def orTruthy (x : Option String) (d : String) : String :=
  match x with
  | Option.some s => if s = "" then d else s
  | Option.none => d

/-- A `Config` object: the `settings` mapping plus the two text attributes set
by `__init__`, and `extra`, the rest of the instance `__dict__` as populated
by later direct attribute assignments (empty on a freshly built instance).
Rebinding the reserved `settings` attribute itself (done only inside
`__init__`, with a mapping rather than a setting value) is outside the
modelled mutation surface. -/
structure Config where
  settings : SDict
  description : String
  epilog : String
  extra : List (String × PyVal) := []
deriving DecidableEq, Repr

/-- `Config.__init__` (config.py lines 126-130): build the settings mapping
through `make_settings` (whose validator failures propagate) and store the
description texts. -/
def mkConfig (r : RegState) (app : Option String) (inc exc : List String)
    (descr epil : Option String) : Except PyErr Config :=
  match make_settings r app inc exc with
  | Except.error e => Except.error e
  | Except.ok m =>
    Except.ok { settings := m, description := orTruthy descr "Pulsar server",
                epilog := orTruthy epil "Have fun!" }

/-- `name in self.settings`. -/
def Config.hasSetting (c : Config) (n : String) : Bool := (alLookup c.settings n).isSome

/-- `Config.set` (config.py lines 152-155): unknown names raise
`AttributeError`; otherwise the stored instance's `set` runs (mutating it in
place, which the model renders by rebinding the entry under its unchanged
key position). -/
def Config.set (c : Config) (name : String) (value : PyVal) : Except PyErr Config :=
  match alLookup c.settings name with
  | Option.none =>
    Except.error (.attributeError ("No configuration setting for: " ++ name))
  | Option.some s =>
    match s.set value with
    | Except.error e => Except.error e
    | Except.ok s' => Except.ok { c with settings := alInsert c.settings name s' }

/-- The `property` attributes of the `Config` class (config.py lines 173-213).
They are data descriptors, so they take precedence over both the instance
`__dict__` and `__getattr__` on reads, and — having no setters — reject any
assignment inside `object.__setattr__`. -/
def configProps : List String :=
  ["worker_class", "workers", "address", "uid", "gid", "proc_name"]

/-- The `workers` property (config.py lines 181-183):
`self.settings['workers'].get()` — a plain indexing that raises `KeyError`
when the name was filtered out of this instance. -/
def Config.propWorkers (c : Config) : Except PyErr PyVal :=
  match alLookup c.settings "workers" with
  | Option.some s => Except.ok s.get
  | Option.none => Except.error (.keyError "workers")

/-- The `proc_name` property (config.py lines 203-213): the bound
`proc_name` value when it is not `None`, else the bound `default_proc_name`
value, else `None`. -/
def Config.propProcName (c : Config) : Except PyErr PyVal :=
  let pn : PyVal :=
    match alLookup c.settings "proc_name" with
    | Option.some s => s.get
    | Option.none => PyVal.none
  match pn with
  | PyVal.none =>
    match alLookup c.settings "default_proc_name" with
    | Option.some s => Except.ok s.get
    | Option.none => Except.ok PyVal.none
  | v => v |> Except.ok

/-- Attribute assignment on a `Config` (config.py lines 147-150 together with
`object.__setattr__`): `Config.__setattr__` rejects any name bound in
`self.settings`; otherwise `super().__setattr__` runs, which for a name
carried by a class property (a data descriptor with no setter) raises
`AttributeError`, and for any other name stores the value raw in the instance
`__dict__`. -/
def Config.setattrF (c : Config) (name : String) (v : PyVal) : Except PyErr Config :=
  if name ≠ "settings" ∧ c.hasSetting name then
    Except.error (.attributeError "Invalid access!")
  else if name ∈ configProps then
    Except.error (.attributeError "can't set attribute")
  else Except.ok { c with extra := alInsert c.extra name v }

/-- The `Config` class attributes that carry no setting value: the reserved
instance attributes, the methods, and the properties whose getters call
external collaborators (`system.load_worker_class`, `parse_address`,
`get_uid`, `get_gid`).  `Config.getattrF` models attribute reads only for
names outside this list (and outside double-underscore names inherited from
`object`); no registered setting name is in it except via `configProps`. -/
def configNonValueAttrs : List String :=
  ["settings", "description", "epilog", "set", "parser",
   "worker_class", "address", "uid", "gid"]

/-- Attribute read on a `Config`, for names outside `configNonValueAttrs`:
class data descriptors (the two properties whose getters are pure over the
settings mapping) win first; then the instance `__dict__`; only if both miss
does `Config.__getattr__` (config.py lines 140-145) run: a bound name answers
`get()`, a name in the global `KNOWN_SETTINGS_SET` answers `None`, anything
else raises `AttributeError`. -/
def Config.getattrF (c : Config) (name : String) : Except PyErr PyVal :=
  if name = "workers" then c.propWorkers
  else if name = "proc_name" then c.propProcName
  else
    match alLookup c.extra name with
    | Option.some v => Except.ok v
    | Option.none =>
      match alLookup c.settings name with
      | Option.some s => Except.ok s.get
      | Option.none =>
        if name ∈ knownSettingsSet then Except.ok PyVal.none
        else Except.error (.attributeError ("No configuration setting for: " ++ name))

/-- One argument added to the `argparse` parser.  `dest` is the explicit
`dest` keyword for flag arguments, and the name argparse derives for a
positional one; `versionTag` carries the version string of the version
action. -/
structure ArgSpec where
  args : List String
  dest : Option String := Option.none
  actionV : Option String := Option.none
  typeV : Option String := Option.none
  defaultV : Option PyVal := Option.none
  helpV : Option String := Option.none
  nargsV : Option String := Option.none
  metaV : Option String := Option.none
  versionTag : Option String := Option.none
deriving DecidableEq, Repr

/-- The `--version` argument seeded first by `Config.parser` (config.py lines
163-165). -/
def versionArg : ArgSpec :=
  { args := ["--version"], actionV := Option.some "version",
    versionTag := Option.some pulsarVersion }

/-- `Setting.add_argument` (config.py lines 274-297): the `type` keyword is
prepared when `self.type` is truthy and not `'string'`; a setting with truthy
`cli` contributes a flag argument (whose `type` is dropped again unless the
action is `"store"`); otherwise truthy `nargs` and `name` contribute a
positional argument; otherwise nothing is added. -/
def Setting.addArgument (s : Setting) : Option ArgSpec :=
  let typeKW : Option String :=
    match s.typeV with
    | Option.some t => if t ≠ "string" ∧ t ≠ "" then Option.some t else Option.none
    | Option.none => Option.none
  if s.cli ≠ [] then
    let act := match s.actionV with
      | Option.some a => if a ≠ "" then a else "store"
      | Option.none => "store"
    Option.some
      { args := s.cli, dest := Option.some s.name, actionV := Option.some act,
        typeV := if act = "store" then typeKW else Option.none,
        defaultV := Option.some PyVal.none,
        helpV := Option.some (s.short ++ " [" ++ pyStr s.defaultV ++ "]") }
  else if pyTruthyO s.nargsV ∧ s.name ≠ "" then
    Option.some
      { args := [s.name], dest := Option.some s.name, typeV := typeKW,
        nargsV := s.nargsV,
        metaV := if pyTruthyO s.metaV then s.metaV else Option.none,
        helpV := Option.some s.short }
  else Option.none

/-- Strict lexicographic comparison of character lists by code point,
Python's `<` on strings.  (Implemented directly so that it reduces inside the
kernel; core `String.ltb` is well-founded recursion over iterators and does
not.) -/
def charsLt : List Char → List Char → Bool
  | [], [] => false
  | [], _ :: _ => true
  | _ :: _, [] => false
  | a :: as, b :: bs =>
    if a < b then true else if b < a then false else charsLt as bs

/-- Python's `<` on whole strings. -/
def strLt (a b : String) : Bool := charsLt a.data b.data

/-- The sort key used by both `Config.parser` and the (unused) sorter of
`make_options`: the pair `(setting.section, setting.order)` under
lexicographic order, Python tuple comparison. -/
def settingPairLe (a b : String × Setting) : Prop :=
  strLt a.2.sectionName b.2.sectionName = true ∨
    (a.2.sectionName = b.2.sectionName ∧ a.2.order ≤ b.2.order)

instance : DecidableRel settingPairLe := fun a b =>
  if h1 : strLt a.2.sectionName b.2.sectionName = true then isTrue (Or.inl h1)
  else if h2 : a.2.sectionName = b.2.sectionName ∧ a.2.order ≤ b.2.order then
    isTrue (Or.inr h2)
  else
    isFalse (by
      intro hh
      rcases hh with hh | hh
      · exact h1 hh
      · exact h2 hh)

instance : IsTotal (String × Setting) settingPairLe := by
  constructor
  have connex : ∀ x y : List Char, charsLt x y = true ∨ x = y ∨ charsLt y x = true := by
    intro x
    induction x with
    | nil =>
      intro y
      cases y with
      | nil => exact Or.inr (Or.inl rfl)
      | cons b bs => exact Or.inl rfl
    | cons a as ih =>
      intro y
      cases y with
      | nil => exact Or.inr (Or.inr rfl)
      | cons b bs =>
        rcases lt_trichotomy a b with h | h | h
        · exact Or.inl (by simp [charsLt, h])
        · subst h
          rcases ih bs with h' | h' | h'
          · exact Or.inl (by simp [charsLt, lt_irrefl, h'])
          · exact Or.inr (Or.inl (by rw [h']))
          · exact Or.inr (Or.inr (by simp [charsLt, lt_irrefl, h']))
        · exact Or.inr (Or.inr (by simp [charsLt, h]))
  intro a b
  rcases connex a.2.sectionName.data b.2.sectionName.data with h | h | h
  · exact Or.inl (Or.inl h)
  · have he : a.2.sectionName = b.2.sectionName := by
      have h' := congrArg String.mk h
      simpa using h' 
    rcases Nat.le_total a.2.order b.2.order with h' | h'
    · exact Or.inl (Or.inr ⟨he, h'⟩)
    · exact Or.inr (Or.inr ⟨he.symm, h'⟩)
  · exact Or.inr (Or.inl h)

instance : IsTrans (String × Setting) settingPairLe := by
  constructor
  have key : ∀ x y z : List Char,
      charsLt x y = true → charsLt y z = true → charsLt x z = true := by
    intro x
    induction x with
    | nil =>
      intro y z h1 h2
      cases y with
      | nil => cases h1
      | cons b bs =>
        cases z with
        | nil => cases h2
        | cons e es => rfl
    | cons a as ih =>
      intro y z h1 h2
      cases y with
      | nil => cases h1
      | cons b bs =>
        cases z with
        | nil => cases h2
        | cons e es =>
          simp only [charsLt] at h1 h2 ⊢
          by_cases hab : a < b
          · by_cases hbe : b < e
            · rw [if_pos (lt_trans hab hbe)]
            · rw [if_neg hbe] at h2
              by_cases heb : e < b
              · rw [if_pos heb] at h2; cases h2
              · have hbe' : b = e := le_antisymm (le_of_not_lt heb) (le_of_not_lt hbe)
                rw [if_pos (hbe' ▸ hab)]
          · rw [if_neg hab] at h1
            by_cases hba : b < a
            · rw [if_pos hba] at h1; cases h1
            · have hab' : a = b := le_antisymm (le_of_not_lt hba) (le_of_not_lt hab)
              rw [if_neg hba] at h1
              by_cases hbe : b < e
              · rw [if_pos (hab' ▸ hbe)]
              · rw [if_neg hbe] at h2
                by_cases heb : e < b
                · rw [if_pos heb] at h2; cases h2
                · rw [if_neg heb] at h2
                  have hbe' : b = e := le_antisymm (le_of_not_lt heb) (le_of_not_lt hbe)
                  have hae : ¬ a < e := hbe' ▸ hab' ▸ (lt_irrefl a : ¬ a < a)
                  have hea : ¬ e < a := hbe' ▸ hab' ▸ (lt_irrefl a : ¬ a < a)
                  rw [if_neg hae, if_neg hea]
                  exact ih bs es h1 h2
  intro a b c hab hbc
  rcases hab with h1 | ⟨h1, h1'⟩
  · rcases hbc with h2 | ⟨h2, _⟩
    · exact Or.inl (key _ _ _ h1 h2)
    · exact Or.inl (by rw [strLt] at h1 ⊢; rw [← h2]; exact h1)
  · rcases hbc with h2 | ⟨h2, h2'⟩
    · exact Or.inl (by rw [strLt] at h2 ⊢; rw [h1]; exact h2)
    · exact Or.inr ⟨h1.trans h2, h1'.trans h2'⟩

/-- `sorted(self.settings.keys(), key=lambda x: (section, order))` of
`Config.parser` (config.py lines 166-169), carried out on the
(key, setting) pairs.  Keys of a settings mapping are distinct, so any
correct sort coincides with Python's stable `sorted`. -/
def Config.sortedSettings (c : Config) : SDict :=
  List.insertionSort settingPairLe c.settings

/-- `Config.parser` (config.py lines 157-171), reduced to the list of added
arguments: the version flag first, then one argument per bound setting with a
CLI surface, visited in `(section, order)` order. -/
def Config.parserArgs (c : Config) : List ArgSpec :=
  versionArg :: c.sortedSettings.filterMap (fun p => p.2.addArgument)

/-- The bound settings that actually contribute a parser argument, in the
order `Config.parser` visits them. -/
def Config.emittedSettings (c : Config) : SDict :=
  c.sortedSettings.filter (fun p => (p.2.addArgument).isSome)

/-- The `for k in keys` loop of `make_options` (config.py lines 100-118),
iterating the settings dict in insertion order (the local `sorter` is defined
but never applied).  A setting without CLI flags is skipped; the first one
with flags reaches `optparse.make_option` — but `optparse` is not among the
module's imports (config.py lines 12-21), so that reference raises
`NameError`.  Only if no setting has flags does the loop finish with the
(empty) options tuple. -/
def makeOptionsLoop : SDict → Except PyErr (List ArgSpec)
  | [] => Except.ok []
  | (_, s) :: rest =>
    if s.cli = [] then makeOptionsLoop rest
    else Except.error (.nameError "optparse")

/-- `make_options()` (config.py lines 91-120): build the settings mapping
with `exclude=('version',)` and run the emission loop. -/
def make_options (r : RegState) : Except PyErr (List ArgSpec) :=
  match make_settings r Option.none [] ["version"] with
  | Except.error e => Except.error e
  | Except.ok g => makeOptionsLoop g

/-- Does `needle` match at the head of `hay`? -/
def matchesAt (needle hay : List Char) : Bool :=
  match needle, hay with
  | [], _ => true
  | _ :: _, [] => false
  | a :: as, b :: bs => a = b && matchesAt as bs

/-- Does `needle` occur somewhere in `hay`? -/
def occursIn (needle : List Char) : List Char → Bool
  | [] => matchesAt needle []
  | b :: bs => matchesAt needle (b :: bs) || occursIn needle bs

/-- Substring occurrence, used to state whether an error message identifies a
setting's name. -/
def strMentions (hay needle : String) : Bool := occursIn needle.data hay.data

/-- A placeholder `Setting` used only to totalize the unreachable branches of
the concrete unwrapping definitions below. -/
def dummySetting : Setting :=
  { name := "", app := Option.none, sectionName := "", cli := [],
    validator := VKind.vString, typeV := Option.none, metaV := Option.none,
    actionV := Option.none, defaultV := PyVal.none, short := "",
    nargsV := Option.none, order := 0 }

/-- A placeholder `Config` for unreachable branches. -/
def dummyConfig : Config := { settings := [], description := "", epilog := "" }

/-- The unfiltered `Config()` over the module registry. -/
def defaultConfig : Config :=
  match mkConfig moduleReg Option.none [] [] Option.none Option.none with
  | Except.ok c => c
  | Except.error _ => dummyConfig

/-- `Config(exclude=["debug"])` over the module registry. -/
def cfgNoDebug : Config :=
  match mkConfig moduleReg Option.none [] ["debug"] Option.none Option.none with
  | Except.ok c => c
  | Except.error _ => dummyConfig

/-- `Config(exclude=["workers"])` over the module registry. -/
def cfgNoWorkers : Config :=
  match mkConfig moduleReg Option.none [] ["workers"] Option.none Option.none with
  | Except.ok c => c
  | Except.error _ => dummyConfig

/-- The bound `debug` setting instance of the unfiltered config. -/
def debugSetting : Setting :=
  match alLookup defaultConfig.settings "debug" with
  | Option.some s => s
  | Option.none => dummySetting

/-- The bound `timeout` setting instance of `cfgNoDebug`. -/
def timeoutSetting : Setting :=
  match alLookup cfgNoDebug.settings "timeout" with
  | Option.some s => s
  | Option.none => dummySetting

/-- The `debug` setting after `set("true")`. -/
def c4set : Setting :=
  match debugSetting.set (PyVal.str "true") with
  | Except.ok s => s
  | Except.error _ => debugSetting

/-- The unfiltered config after `set("workers", "4")`. -/
def c7cfg : Config :=
  match defaultConfig.set "workers" (PyVal.str "4") with
  | Except.ok c => c
  | Except.error _ => defaultConfig

/-- A first config built from the registry, after `set("timeout", 10)`. -/
def c5cfg1 : Config :=
  match defaultConfig.set "timeout" (PyVal.int 10) with
  | Except.ok c => c
  | Except.error _ => defaultConfig

/-- A second config built from the same registry, after `set("timeout", 60)`. -/
def c5cfg2 : Config :=
  match defaultConfig.set "timeout" (PyVal.int 60) with
  | Except.ok c => c
  | Except.error _ => defaultConfig

/-- A declaration sequence exercising duplicate registration: a first
descriptor named `"foo"`. -/
def dupDeclA : SettingDecl :=
  { name := "foo", sectionName := "S", validatorV := Option.some VKind.vString,
    defaultV := PyVal.str "a", short := "first" }

/-- A second, different descriptor declared under the same name `"foo"`. -/
def dupDeclB : SettingDecl :=
  { name := "foo", sectionName := "S", validatorV := Option.some VKind.vString,
    defaultV := PyVal.str "b", short := "second" }

/-- The registry state after declaring two descriptors in sequence on a fresh
registry. -/
def regPair (d1 d2 : SettingDecl) : RegState :=
  registerSetting (registerSetting {} d1) d2

/-- The registry holding `dupDeclA` then `dupDeclB`. -/
def dupReg : RegState := regPair dupDeclA dupDeclB

/-- The instance of the first duplicate descriptor. -/
def dupInstA : Setting :=
  match mkInstance (declToCls dupDeclA 0) with
  | Except.ok s => s
  | Except.error _ => dummySetting

/-- The instance of the second duplicate descriptor. -/
def dupInstB : Setting :=
  match mkInstance (declToCls dupDeclB 1) with
  | Except.ok s => s
  | Except.error _ => dummySetting

/-- The settings mapping for `app=None, include=["workers"],
exclude=["debug"]` over the module registry. -/
def c3m : SDict :=
  match make_settings moduleReg Option.none ["workers"] ["debug"] with
  | Except.ok m => m
  | Except.error _ => []

/-- The instance of the `Workers` class as registered (order 1). -/
def workersInst : Setting :=
  match mkInstance (declToCls declWorkers 1) with
  | Except.ok s => s
  | Except.error _ => dummySetting

/-- The `dest` names of a config's parser arguments, in the order the
arguments are added. -/
def parserDests (c : Config) : List String :=
  c.parserArgs.filterMap (fun a => a.dest)

/-- Looking a key up after a dict insertion: the inserted key answers the new
value, all others are unchanged. -/
theorem alLookup_alInsert {α : Type} (m : List (String × α)) (k n : String) (v : α) :
    alLookup (alInsert m k v) n = if n = k then Option.some v else alLookup m n := by
  induction m with
  | nil =>
    simp only [alInsert, alLookup]
    by_cases h : k = n
    · subst h; simp
    · rw [if_neg h, if_neg fun hh => h hh.symm]
  | cons p rest ih =>
    obtain ⟨k', v'⟩ := p
    by_cases hk : k' = k
    · subst hk
      simp only [alInsert, if_pos rfl, alLookup]
      by_cases hn : k' = n
      · subst hn; simp
      · rw [if_neg hn, if_neg fun hh => hn hh.symm, if_neg hn]
    · simp only [alInsert, if_neg hk, alLookup]
      by_cases hn : k' = n
      · subst hn
        rw [if_pos rfl, if_neg hk, if_pos rfl]
      · rw [if_neg hn, ih]
        by_cases hnk : n = k
        · rw [if_pos hnk, if_pos hnk]
        · rw [if_neg hnk, if_neg hnk, if_neg hn]

/-- Membership after a dict insertion. -/
theorem mem_alInsert {α : Type} (m : List (String × α)) (k : String) (v : α)
    (p : String × α) (h : p ∈ alInsert m k v) : p = (k, v) ∨ p ∈ m := by
  induction m with
  | nil => simpa [alInsert] using h
  | cons q rest ih =>
    obtain ⟨k', v'⟩ := q
    by_cases hk : k' = k
    · subst hk
      simp only [alInsert, if_pos rfl] at h
      rcases List.mem_cons.mp h with h | h
      · exact Or.inl (by simpa using h)
      · exact Or.inr (List.mem_cons_of_mem _ h)
    · simp only [alInsert, if_neg hk] at h
      rcases List.mem_cons.mp h with h | h
      · exact Or.inr (List.mem_cons.mpr (Or.inl h))
      · rcases ih h with h | h
        · exact Or.inl h
        · exact Or.inr (List.mem_cons_of_mem _ h)

/-- Keys present after a dict insertion. -/
theorem mem_keys_alInsert {α : Type} (m : List (String × α)) (k : String) (v : α)
    (n : String) (h : n ∈ (alInsert m k v).map Prod.fst) :
    n ∈ m.map Prod.fst ∨ n = k := by
  rcases List.mem_map.mp h with ⟨p, hp, hfst⟩
  rcases mem_alInsert m k v p hp with h' | h'
  · subst h'; exact Or.inr hfst.symm
  · exact Or.inl (hfst ▸ List.mem_map_of_mem Prod.fst h')

/-- Dict insertion preserves distinctness of the keys. -/
theorem nodup_keys_alInsert {α : Type} (m : List (String × α)) (k : String) (v : α)
    (h : (m.map Prod.fst).Nodup) : ((alInsert m k v).map Prod.fst).Nodup := by
  induction m with
  | nil => simp [alInsert]
  | cons p rest ih =>
    obtain ⟨k', v'⟩ := p
    by_cases hk : k' = k
    · subst hk; simpa [alInsert] using h
    · simp only [alInsert, if_neg hk, List.map_cons]
      simp only [List.map_cons, List.nodup_cons] at h
      refine List.nodup_cons.mpr ⟨?_, ih h.2⟩
      intro hmem
      rcases mem_keys_alInsert rest k v k' hmem with h' | h'
      · exact h.1 h'
      · exact hk h'

/-- Under distinct keys, dict lookup answers exactly the pairs of the list. -/
theorem alLookup_eq_some_iff_mem {α : Type} (m : List (String × α))
    (hnd : (m.map Prod.fst).Nodup) (n : String) (v : α) :
    alLookup m n = Option.some v ↔ (n, v) ∈ m := by
  induction m with
  | nil => simp [alLookup]
  | cons p rest ih =>
    obtain ⟨k', v'⟩ := p
    simp only [List.map_cons, List.nodup_cons] at hnd
    simp only [alLookup, List.mem_cons]
    by_cases hn : k' = n
    · subst hn
      rw [if_pos rfl]
      constructor
      · intro h
        exact Or.inl (by rw [(Option.some.inj h).symm])
      · rintro (h | h)
        · have hv : v = v' := congrArg Prod.snd h
          rw [hv]
        · exact absurd (List.mem_map_of_mem Prod.fst h) hnd.1
    · rw [if_neg hn, ih hnd.2]
      constructor
      · exact fun h => Or.inr h
      · rintro (h | h)
        · exact absurd (congrArg Prod.fst h).symm hn
        · exact h

/-- Instantiating a registered class only fills in `value`; every class field
is carried over unchanged. -/
theorem mkInstance_fields (c : SettingCls) (s : Setting) (h : mkInstance c = Except.ok s) :
    s.name = c.name ∧ s.app = c.app := by
  simp only [mkInstance, Setting.set] at h
  split at h
  · split at h
    · cases h
      exact ⟨rfl, rfl⟩
    · cases h
  · cases h
    exact ⟨rfl, rfl⟩

/-- A kept setting was not excluded, and if app-scoped its app is the
requested one. -/
theorem keepSetting_consequences (app : Option String) (inc exc : List String)
    (s : Setting) (h : keepSetting app inc exc s = true) :
    exc.contains s.name = false ∧ (pyTruthyO s.app = true → s.app = app) := by
  unfold keepSetting at h
  rw [Bool.and_eq_true, Bool.and_eq_true] at h
  obtain ⟨⟨h1, _⟩, h3⟩ := h
  constructor
  · simpa using h3
  · intro htr
    have h1' : (pyTruthyO s.app && (s.app != app)) = false := by
      cases hx : (pyTruthyO s.app && (s.app != app)) with
      | false => rfl
      | true => rw [hx] at h1; cases h1
    rw [htr, Bool.true_and] at h1'
    simpa using h1'

/-- Characterization of the mapping produced by the `make_settings` loop:
under distinct class names (and an accumulator whose keys avoid them), a
lookup answers a setting exactly when some listed class of that name
instantiates to it and passes the filters, or when the accumulator already
held it and no listed class has that name. -/
theorem msLoop_lookup (app : Option String) (inc exc : List String) :
    ∀ (cs : List SettingCls) (acc m : SDict),
      msLoop app inc exc cs acc = Except.ok m →
      (cs.map SettingCls.name).Nodup →
      (∀ c ∈ cs, alLookup acc c.name = Option.none) →
      ∀ n s', alLookup m n = Option.some s' ↔
        ((∃ c ∈ cs, c.name = n ∧ mkInstance c = Except.ok s' ∧
            keepSetting app inc exc s' = true) ∨
         (alLookup acc n = Option.some s' ∧ ∀ c ∈ cs, c.name ≠ n)) := by
  intro cs
  induction cs with
  | nil =>
    intro acc m h _ _ n s'
    simp only [msLoop] at h
    cases h
    simp
  | cons c rest ih =>
    intro acc m h hnd hdisj n s'
    simp only [msLoop] at h
    cases hmk : mkInstance c with
    | error e => rw [hmk] at h; cases h
    | ok s =>
      rw [hmk] at h
      simp only [Setting.copy] at h
      have hname : s.name = c.name := (mkInstance_fields c s hmk).1
      rw [List.map_cons] at hnd
      have hnd' := List.nodup_cons.mp hnd
      have hndr : (rest.map SettingCls.name).Nodup := hnd'.2
      have hhd : c.name ∉ rest.map SettingCls.name := hnd'.1
      have hacc : alLookup acc c.name = Option.none := hdisj c (List.mem_cons_self c rest)
      by_cases hkeep : keepSetting app inc exc s = true
      · rw [if_pos hkeep] at h
        have hdisj' : ∀ c' ∈ rest, alLookup (alInsert acc s.name s) c'.name = Option.none := by
          intro c' hc'
          rw [alLookup_alInsert]
          have hne : c'.name ≠ s.name := by
            intro hh
            apply hhd
            rw [← hname, ← hh]
            exact List.mem_map_of_mem SettingCls.name hc'
          rw [if_neg hne]
          exact hdisj c' (List.mem_cons_of_mem _ hc')
        rw [ih (alInsert acc s.name s) m h hndr hdisj' n s']
        constructor
        · rintro (⟨c', hc', hn', hmk', hk'⟩ | ⟨hlk, hnone⟩)
          · exact Or.inl ⟨c', List.mem_cons_of_mem _ hc', hn', hmk', hk'⟩
          · rw [alLookup_alInsert] at hlk
            by_cases hn : n = s.name
            · rw [if_pos hn] at hlk
              cases hlk
              exact Or.inl ⟨c, List.mem_cons_self c rest, (hn.trans hname).symm, hmk, hkeep⟩
            · rw [if_neg hn] at hlk
              refine Or.inr ⟨hlk, ?_⟩
              intro c' hc'
              rcases List.mem_cons.mp hc' with h' | h'
              · subst h'
                intro hh
                exact hn (hh.symm.trans hname.symm)
              · exact hnone c' h'
        · rintro (⟨c', hc', hn', hmk', hk'⟩ | ⟨hlk, hnone⟩)
          · rcases List.mem_cons.mp hc' with h' | h'
            · subst h'
              rw [hmk] at hmk'
              cases hmk'
              refine Or.inr ⟨?_, ?_⟩
              · rw [alLookup_alInsert, if_pos ((hname.trans hn').symm)]
              · intro c'' hc''
                intro hh
                apply hhd
                rw [hn', ← hh]
                exact List.mem_map_of_mem SettingCls.name hc''
            · exact Or.inl ⟨c', h', hn', hmk', hk'⟩
          · have hn : n ≠ s.name := fun hh =>
              hnone c (List.mem_cons_self c rest) ((hh.trans hname).symm)
            refine Or.inr ⟨?_, fun c' hc' => hnone c' (List.mem_cons_of_mem _ hc')⟩
            rw [alLookup_alInsert, if_neg hn]
            exact hlk
      · rw [if_neg hkeep] at h
        have hdisj' : ∀ c' ∈ rest, alLookup acc c'.name = Option.none :=
          fun c' hc' => hdisj c' (List.mem_cons_of_mem _ hc')
        rw [ih acc m h hndr hdisj' n s']
        constructor
        · rintro (⟨c', hc', hn', hmk', hk'⟩ | ⟨hlk, hnone⟩)
          · exact Or.inl ⟨c', List.mem_cons_of_mem _ hc', hn', hmk', hk'⟩
          · refine Or.inr ⟨hlk, ?_⟩
            intro c' hc'
            rcases List.mem_cons.mp hc' with h' | h'
            · subst h'
              intro hh
              rw [← hh, hacc] at hlk
              cases hlk
            · exact hnone c' h'
        · rintro (⟨c', hc', hn', hmk', hk'⟩ | ⟨hlk, hnone⟩)
          · rcases List.mem_cons.mp hc' with h' | h'
            · subst h'
              rw [hmk] at hmk'
              cases hmk'
              exact absurd hk' hkeep
            · exact Or.inl ⟨c', h', hn', hmk', hk'⟩
          · exact Or.inr ⟨hlk, fun c' hc' => hnone c' (List.mem_cons_of_mem _ hc')⟩

/-- Every entry of a `make_settings` result is stored under its own name. -/
theorem msLoop_keys_name (app : Option String) (inc exc : List String) :
    ∀ (cs : List SettingCls) (acc m : SDict),
      msLoop app inc exc cs acc = Except.ok m →
      (∀ p ∈ acc, p.1 = p.2.name) →
      ∀ p ∈ m, p.1 = p.2.name := by
  intro cs
  induction cs with
  | nil =>
    intro acc m h hacc
    simp only [msLoop] at h
    cases h
    exact hacc
  | cons c rest ih =>
    intro acc m h hacc
    simp only [msLoop] at h
    cases hmk : mkInstance c with
    | error e => rw [hmk] at h; cases h
    | ok s =>
      rw [hmk] at h
      simp only [Setting.copy] at h
      by_cases hkeep : keepSetting app inc exc s = true
      · rw [if_pos hkeep] at h
        refine ih (alInsert acc s.name s) m h ?_
        intro p hp
        rcases mem_alInsert acc s.name s p hp with h' | h'
        · rw [h']
        · exact hacc p h'
      · rw [if_neg hkeep] at h
        exact ih acc m h hacc

/-- A `make_settings` result has distinct keys. -/
theorem msLoop_keys_nodup (app : Option String) (inc exc : List String) :
    ∀ (cs : List SettingCls) (acc m : SDict),
      msLoop app inc exc cs acc = Except.ok m →
      (acc.map Prod.fst).Nodup →
      (m.map Prod.fst).Nodup := by
  intro cs
  induction cs with
  | nil =>
    intro acc m h hacc
    simp only [msLoop] at h
    cases h
    exact hacc
  | cons c rest ih =>
    intro acc m h hacc
    simp only [msLoop] at h
    cases hmk : mkInstance c with
    | error e => rw [hmk] at h; cases h
    | ok s =>
      rw [hmk] at h
      simp only [Setting.copy] at h
      by_cases hkeep : keepSetting app inc exc s = true
      · rw [if_pos hkeep] at h
        exact ih (alInsert acc s.name s) m h (nodup_keys_alInsert acc s.name s hacc)
      · rw [if_neg hkeep] at h
        exact ih acc m h hacc

/-- Shape of a successfully constructed config: its settings come from
`make_settings` and its instance dict beyond the fixed attributes is empty. -/
theorem mkConfig_ok (r : RegState) (app : Option String) (inc exc : List String)
    (de ep : Option String) (c : Config)
    (h : mkConfig r app inc exc de ep = Except.ok c) :
    make_settings r app inc exc = Except.ok c.settings ∧ c.extra = [] := by
  unfold mkConfig at h
  cases hm : make_settings r app inc exc with
  | error e => rw [hm] at h; cases h
  | ok m =>
    rw [hm] at h
    cases h
    exact ⟨rfl, rfl⟩

/-- An argument contributed by a setting always has the setting's name as its
destination (explicitly for a flag argument, derived by argparse for a
positional one). -/
theorem addArgument_dest (s : Setting) (a : ArgSpec)
    (h : s.addArgument = Option.some a) : a.dest = Option.some s.name := by
  simp only [Setting.addArgument] at h
  by_cases h1 : s.cli ≠ []
  · rw [if_pos h1] at h
    cases h
    rfl
  · rw [if_neg h1] at h
    by_cases h2 : pyTruthyO s.nargsV = true ∧ s.name ≠ ""
    · rw [if_pos h2] at h
      cases h
      rfl
    · rw [if_neg h2] at h
      cases h

/-- Claim C8: `validate_pos_int("-1")` fails with the negativity error while
`"0x10"` parses to the integer 16; base prefixes `0o`/`0b` parse likewise, and
in general a numeric string is converted through `int(val, 0)` with exactly
the negative results rejected. -/
theorem C8_validate_pos_int (s : String) (n : Int) (h : pyIntBase0 s = Except.ok n) :
    validate_pos_int (.str "-1") =
      Except.error (.valueError "Value must be positive: -1") ∧
    validate_pos_int (.str "0x10") = Except.ok (.int 16) ∧
    validate_pos_int (.str "0o20") = Except.ok (.int 16) ∧
    validate_pos_int (.str "0b101") = Except.ok (.int 5) ∧
    (n < 0 → validate_pos_int (.str s) =
      Except.error (.valueError ("Value must be positive: " ++ toString n))) ∧
    (0 ≤ n → validate_pos_int (.str s) = Except.ok (.int n)) := by
  refine ⟨by decide, by decide, by decide, by decide, ?_, ?_⟩
  · intro hneg
    simp only [validate_pos_int, h]
    exact if_pos hneg
  · intro hge
    simp only [validate_pos_int, h]
    exact if_neg (not_lt.mpr hge)

/-- Witness for C8 at the concrete input `"12"`. -/
theorem C8_witness : validate_pos_int (.str "12") = Except.ok (.int 12) :=
  (C8_validate_pos_int "12" 12 (by decide)).2.2.2.2.2 (by decide)

/-- Claim C7: on the unfiltered config (whose bound settings contain
`workers`), `set("workers", "4")` stores the positive-int validator's output,
so the subsequent read of `workers` yields the integer 4 and not the string
`"4"`. -/
theorem C7_workers_roundtrip :
    mkConfig moduleReg Option.none [] [] Option.none Option.none =
      Except.ok defaultConfig ∧
    defaultConfig.hasSetting "workers" = true ∧
    defaultConfig.set "workers" (PyVal.str "4") = Except.ok c7cfg ∧
    c7cfg.getattrF "workers" = Except.ok (PyVal.int 4) ∧
    PyVal.int 4 ≠ PyVal.str "4" := by
  refine ⟨by decide, by decide, by decide, by decide, by decide⟩

/-- Claim C5: two configs built from the same registry hold independent
copies — after `set("timeout", 10)` on the first and `set("timeout", 60)` on
the second, each reads back its own value, and the registry template (the
registered class and a freshly built config) still carries the default 30. -/
theorem C5_copy_independence :
    defaultConfig.set "timeout" (PyVal.int 10) = Except.ok c5cfg1 ∧
    defaultConfig.set "timeout" (PyVal.int 60) = Except.ok c5cfg2 ∧
    c5cfg1.getattrF "timeout" = Except.ok (PyVal.int 10) ∧
    c5cfg2.getattrF "timeout" = Except.ok (PyVal.int 60) ∧
    (moduleReg.knownSettings.map (fun c => (c.name, c.defaultV))).contains
      ("timeout", PyVal.int 30) = true ∧
    defaultConfig.getattrF "timeout" = Except.ok (PyVal.int 30) := by
  refine ⟨by decide, by decide, by decide, by decide, by decide, by decide⟩

/-- Claim C10: `make_options` always raises `NameError`: the settings mapping
itself builds fine, but the emission loop references the unbound name
`optparse` as soon as it reaches the first setting with CLI flags — and the
module registers such settings (`config` is the first) — so `make_options`
never returns a value. -/
theorem C10_make_options_nameerror :
    (make_settings moduleReg Option.none [] ["version"]).isOk = true ∧
    "config" ∈ knownSettingsSet ∧
    declConfigFile.cli ≠ [] ∧
    make_options moduleReg = Except.error (PyErr.nameError "optparse") := by
  refine ⟨by decide, by decide, by decide, by decide⟩

/-- Counterexample to claim C4: `set("yes")` on the bound `debug` setting
raises the bool validator's `ValueError` whose message is exactly
`"Invalid boolean: yes"` — it identifies the offending raw input but nowhere
mentions the setting's name `debug`, so the raised failure does not identify
both the setting name and the raw input as claimed. -/
theorem C4_counterexample :
    debugSetting.name = "debug" ∧
    debugSetting.set (PyVal.str "yes") =
      Except.error (PyErr.valueError "Invalid boolean: yes") ∧
    strMentions "Invalid boolean: yes" "yes" = true ∧
    strMentions "Invalid boolean: yes" "debug" = false := by
  refine ⟨by decide, by decide, by decide, by decide⟩

/-- Claim C4 as amended: `set(raw)` runs the validator on the raw input; on
success the stored value is replaced by the validator's output with every
other field unchanged, and on failure the stored state is left unchanged and
the validator's own error is raised (which, per the counterexample, does not
carry the setting's name). -/
theorem C4_amended (s : Setting) (raw : PyVal) :
    (∀ s', s.set raw = Except.ok s' →
      runValidator s.validator raw = Except.ok s'.value ∧
      s' = { s with value := s'.value }) ∧
    (∀ e, s.set raw = Except.error e →
      runValidator s.validator raw = Except.error e) := by
  constructor
  · intro s' h
    unfold Setting.set at h
    cases hr : runValidator s.validator raw with
    | ok v =>
      rw [hr] at h
      cases h
      exact ⟨rfl, rfl⟩
    | error e => rw [hr] at h; cases h
  · intro e h
    unfold Setting.set at h
    cases hr : runValidator s.validator raw with
    | ok v => rw [hr] at h; cases h
    | error e' =>
      rw [hr] at h
      cases h
      rfl

/-- Witness for C4 at the bound `debug` setting and raw input `"true"`. -/
theorem C4_witness :
    runValidator debugSetting.validator (PyVal.str "true") = Except.ok c4set.value ∧
    c4set = { debugSetting with value := c4set.value } :=
  (C4_amended debugSetting (PyVal.str "true")).1 c4set (by decide)

/-- Counterexample to claim C2: `workers` is registered in the global
registry and excluded from this instance, yet the attribute-style read does
not return the neutral absent value — the `workers` class property shadows
`__getattr__` and its `self.settings['workers']` indexing raises `KeyError`. -/
theorem C2_counterexample :
    mkConfig moduleReg Option.none [] ["workers"] Option.none Option.none =
      Except.ok cfgNoWorkers ∧
    "workers" ∈ knownSettingsSet ∧
    cfgNoWorkers.hasSetting "workers" = false ∧
    cfgNoWorkers.getattrF "workers" = Except.error (PyErr.keyError "workers") := by
  refine ⟨by decide, by decide, by decide, by decide⟩

/-- Claim C2 as amended: on a `Config` as constructed, for every attribute
name that is not shadowed by one of `Config`'s own class or instance
attributes (the reserved/collaborator attributes of `configNonValueAttrs`,
the two settings-backed properties `workers` and `proc_name`, and
double-underscore names inherited from `object`), the three-tier read policy
holds: a bound name answers `get()`, a name registered globally but excluded
from this instance answers `None`, and a name unknown to the registry raises
`AttributeError`. -/
theorem C2_amended (app : Option String) (inc exc : List String)
    (de ep : Option String) (c : Config) (name : String)
    (hc : mkConfig moduleReg app inc exc de ep = Except.ok c)
    (h1 : name ∉ configNonValueAttrs)
    (h2 : name ≠ "workers") (h3 : name ≠ "proc_name")
    (h4 : matchesAt "__".data name.data = false) :
    (∀ s, alLookup c.settings name = Option.some s →
      c.getattrF name = Except.ok s.get) ∧
    (c.hasSetting name = false → name ∈ knownSettingsSet →
      c.getattrF name = Except.ok PyVal.none) ∧
    (c.hasSetting name = false → name ∉ knownSettingsSet →
      c.getattrF name =
        Except.error (.attributeError ("No configuration setting for: " ++ name))) := by
  have hex : c.extra = [] := (mkConfig_ok moduleReg app inc exc de ep c hc).2
  have hnone : ∀ h : c.hasSetting name = false, alLookup c.settings name = Option.none := by
    intro h
    unfold Config.hasSetting at h
    cases hx : alLookup c.settings name with
    | none => rfl
    | some s => rw [hx] at h; cases h
  refine ⟨?_, ?_, ?_⟩
  · intro s hs
    unfold Config.getattrF
    rw [if_neg h2, if_neg h3, hex]
    simp only [alLookup]
    rw [hs]
  · intro hns hmem
    unfold Config.getattrF
    rw [if_neg h2, if_neg h3, hex]
    simp only [alLookup]
    rw [hnone hns, if_pos hmem]
  · intro hns hmem
    unfold Config.getattrF
    rw [if_neg h2, if_neg h3, hex]
    simp only [alLookup]
    rw [hnone hns, if_neg hmem]

/-- Witness for C2 as amended, on `Config(exclude=["debug"])`: the bound
`timeout` reads its value 30, the excluded-but-registered `debug` reads
`None`, and the unknown `no_such_setting` raises. -/
theorem C2_witness :
    cfgNoDebug.getattrF "timeout" = Except.ok (PyVal.int 30) ∧
    cfgNoDebug.getattrF "debug" = Except.ok PyVal.none ∧
    cfgNoDebug.getattrF "no_such_setting" =
      Except.error (.attributeError "No configuration setting for: no_such_setting") := by
  have hc : mkConfig moduleReg Option.none [] ["debug"] Option.none Option.none =
      Except.ok cfgNoDebug := by decide
  refine ⟨?_, ?_, ?_⟩
  · have h := (C2_amended Option.none [] ["debug"] Option.none Option.none
      cfgNoDebug "timeout" hc (by decide) (by decide) (by decide) (by decide)).1
      timeoutSetting (by decide)
    rw [h]
    decide
  · exact (C2_amended Option.none [] ["debug"] Option.none Option.none
      cfgNoDebug "debug" hc (by decide) (by decide) (by decide) (by decide)).2.1
      (by decide) (by decide)
  · have h := (C2_amended Option.none [] ["debug"] Option.none Option.none
      cfgNoDebug "no_such_setting" hc (by decide) (by decide) (by decide)
      (by decide)).2.2 (by decide) (by decide)
    rw [h]
    decide

/-- Counterexample to claim C9: `workers` is registered but excluded from
this instance, yet direct attribute assignment is not accepted —
`object.__setattr__` hits the setter-less `workers` class property and raises
`AttributeError`. -/
theorem C9_counterexample :
    mkConfig moduleReg Option.none [] ["workers"] Option.none Option.none =
      Except.ok cfgNoWorkers ∧
    "workers" ∈ knownSettingsSet ∧
    cfgNoWorkers.hasSetting "workers" = false ∧
    cfgNoWorkers.setattrF "workers" (PyVal.int 7) =
      Except.error (PyErr.attributeError "can't set attribute") := by
  refine ⟨by decide, by decide, by decide, by decide⟩

/-- Claim C9 as amended: on a `Config` as constructed, for every name that is
registered in the global registry but not among this instance's bound
settings — and not one of the two registered names shadowed by `Config`
class properties (`workers`, `proc_name`) — direct attribute assignment is
accepted, the raw value is stored in the instance `__dict__` without any
validation, and a subsequent attribute read returns that raw value instead of
the neutral absent value. -/
theorem C9_amended (app : Option String) (inc exc : List String)
    (de ep : Option String) (c : Config) (name : String) (v : PyVal)
    (hc : mkConfig moduleReg app inc exc de ep = Except.ok c)
    (hreg : name ∈ knownSettingsSet)
    (hns : c.hasSetting name = false)
    (h2 : name ≠ "workers") (h3 : name ≠ "proc_name") :
    c.setattrF name v =
      Except.ok { c with extra := alInsert c.extra name v } ∧
    Config.getattrF { c with extra := alInsert c.extra name v } name =
      Except.ok v := by
  have hex : c.extra = [] := (mkConfig_ok moduleReg app inc exc de ep c hc).2
  have hsettings : name ≠ "settings" := by
    intro hh
    rw [hh] at hreg
    exact absurd hreg (by decide)
  have hprops : name ∉ configProps := by
    intro hh
    have : ∀ n ∈ knownSettingsSet, n ∈ configProps → n = "workers" ∨ n = "proc_name" := by
      decide
    rcases this name hreg hh with h' | h'
    · exact h2 h'
    · exact h3 h'
  constructor
  · unfold Config.setattrF
    have hcond : ¬(name ≠ "settings" ∧ c.hasSetting name = true) := by
      intro hh
      rw [hns] at hh
      exact absurd hh.2 (by decide)
    rw [if_neg hcond, if_neg hprops]
  · unfold Config.getattrF
    rw [if_neg h2, if_neg h3]
    simp [hex, alInsert, alLookup]

/-- Witness for C9 as amended: on `Config(exclude=["debug"])`, assigning the
raw string `"raw"` to the excluded registered name `debug` is accepted
unvalidated and read back verbatim. -/
theorem C9_witness :
    cfgNoDebug.setattrF "debug" (PyVal.str "raw") =
      Except.ok
        { cfgNoDebug with extra := alInsert cfgNoDebug.extra "debug" (PyVal.str "raw") } ∧
    Config.getattrF
        { cfgNoDebug with extra := alInsert cfgNoDebug.extra "debug" (PyVal.str "raw") }
        "debug" =
      Except.ok (PyVal.str "raw") :=
  C9_amended Option.none [] ["debug"] Option.none Option.none cfgNoDebug "debug"
    (PyVal.str "raw") (by decide) (by decide) (by decide) (by decide) (by decide)

/-- Counterexample to claim C1: declaring `dupDeclB` under the name already
taken by the different descriptor `dupDeclA` is not a surfaced error — both
land in the registry (registration never aborts), and the lookup mapping
silently binds the shared name to the later descriptor's instance. -/
theorem C1_counterexample :
    dupDeclA.name = dupDeclB.name ∧
    dupDeclA ≠ dupDeclB ∧
    dupReg.knownSettings.length = 2 ∧
    make_settings dupReg Option.none [] [] = Except.ok [("foo", dupInstB)] ∧
    dupInstA.get = PyVal.str "a" ∧
    dupInstB.get = PyVal.str "b" ∧
    dupInstA ≠ dupInstB := by
  refine ⟨by decide, by decide, by decide, by decide, by decide, by decide, by decide⟩

/-- Claim C1 as amended: a second (non-virtual) descriptor declared under an
already-registered name is not detected at all — registration appends it
(both descriptors stay in `KNOWN_SETTINGS`), and `make_settings` silently
maps the shared name to the later descriptor's instance, replacing the
earlier one. -/
theorem C1_amended (d1 d2 : SettingDecl) (s1 s2 : Setting)
    (hn : d1.name = d2.name)
    (ha1 : d1.app = Option.none) (ha2 : d2.app = Option.none)
    (h1 : mkInstance (declToCls d1 0) = Except.ok s1)
    (h2 : mkInstance (declToCls d2 1) = Except.ok s2) :
    (regPair d1 d2).knownSettings = [declToCls d1 0, declToCls d2 1] ∧
    make_settings (regPair d1 d2) Option.none [] [] =
      Except.ok [(d2.name, s2)] := by
  have hks : (regPair d1 d2).knownSettings = [declToCls d1 0, declToCls d2 1] := by
    simp [regPair, registerSetting]
  refine ⟨hks, ?_⟩
  have hname1 : s1.name = d1.name := by
    have := (mkInstance_fields _ _ h1).1
    simpa [declToCls] using this
  have hname2 : s2.name = d2.name := by
    have := (mkInstance_fields _ _ h2).1
    simpa [declToCls] using this
  have happ1 : s1.app = Option.none := by
    have := (mkInstance_fields _ _ h1).2
    simpa [declToCls, ha1] using this
  have happ2 : s2.app = Option.none := by
    have := (mkInstance_fields _ _ h2).2
    simpa [declToCls, ha2] using this
  have hk1 : keepSetting Option.none [] [] s1 = true := by
    simp [keepSetting, happ1, pyTruthyO]
  have hk2 : keepSetting Option.none [] [] s2 = true := by
    simp [keepSetting, happ2, pyTruthyO]
  unfold make_settings
  rw [hks]
  simp only [msLoop, h1, h2, Setting.copy, hk1, if_true, hk2]
  simp [alInsert, hname1, hname2, hn]

/-- Witness for C1 as amended, at the concrete duplicate pair. -/
theorem C1_witness :
    (regPair dupDeclA dupDeclB).knownSettings =
      [declToCls dupDeclA 0, declToCls dupDeclB 1] ∧
    make_settings (regPair dupDeclA dupDeclB) Option.none [] [] =
      Except.ok [(dupDeclB.name, dupInstB)] :=
  C1_amended dupDeclA dupDeclB dupInstA dupInstB rfl rfl rfl (by decide) (by decide)

/-- Claim C3: for every `(app, include, exclude)` triple, the mapping
returned by `make_settings` over the module registry binds a name to a
setting exactly when some registered class of that name instantiates to it
and passes the filter (app unset-or-equal; if `include` is truthy the name is
included or the setting app-scoped; name not excluded); in particular no
returned name is in `exclude` and no returned app-scoped setting carries an
app different from the requested one. -/
theorem C3_make_settings (app : Option String) (inc exc : List String) (m : SDict)
    (h : make_settings moduleReg app inc exc = Except.ok m) :
    (∀ n s', alLookup m n = Option.some s' ↔
       ∃ c ∈ moduleReg.knownSettings, c.name = n ∧ mkInstance c = Except.ok s' ∧
         keepSetting app inc exc s' = true) ∧
    (∀ n s', alLookup m n = Option.some s' →
       exc.contains n = false ∧ (pyTruthyO s'.app = true → s'.app = app)) := by
  have hchar := msLoop_lookup app inc exc moduleReg.knownSettings [] m h
    (by decide) (fun c _ => rfl)
  have hmain : ∀ n s', alLookup m n = Option.some s' ↔
      ∃ c ∈ moduleReg.knownSettings, c.name = n ∧ mkInstance c = Except.ok s' ∧
        keepSetting app inc exc s' = true := by
    intro n s'
    rw [hchar n s']
    constructor
    · rintro (h' | ⟨hl, _⟩)
      · exact h'
      · cases hl
    · exact fun h' => Or.inl h'
  refine ⟨hmain, ?_⟩
  intro n s' hm
  rcases (hmain n s').mp hm with ⟨c, hc, hcn, hmk, hk⟩
  have hcons := keepSetting_consequences app inc exc s' hk
  have hsname : s'.name = c.name := (mkInstance_fields c s' hmk).1
  refine ⟨?_, hcons.2⟩
  rw [← hcn, ← hsname]
  exact hcons.1

/-- Witness for C3 at `app=None, include=["workers"], exclude=["debug"]`:
the returned mapping binds `workers` to the instance of the registered
`Workers` class. -/
theorem C3_witness :
    make_settings moduleReg Option.none ["workers"] ["debug"] = Except.ok c3m ∧
    alLookup c3m "workers" = Option.some workersInst := by
  have hms : make_settings moduleReg Option.none ["workers"] ["debug"] =
      Except.ok c3m := by decide
  refine ⟨hms, ?_⟩
  refine ((C3_make_settings Option.none ["workers"] ["debug"] c3m hms).1
    "workers" workersInst).mpr ?_
  exact ⟨declToCls declWorkers 1, by decide, by decide, by decide, by decide⟩

/-- Counterexample to claim C6: `tmp_upload_dir` is a bound setting of the
unfiltered config yet contributes no parser argument (it has neither CLI
flags nor `nargs`), so `parser()` does not add one argument per bound
setting; and `make_options` emits nothing at all — it raises `NameError` on
the unbound `optparse`. -/
theorem C6_counterexample :
    mkConfig moduleReg Option.none [] [] Option.none Option.none =
      Except.ok defaultConfig ∧
    defaultConfig.hasSetting "tmp_upload_dir" = true ∧
    defaultConfig.parserArgs.all
      (fun a => a.dest ≠ Option.some "tmp_upload_dir") = true ∧
    make_options moduleReg = Except.error (PyErr.nameError "optparse") := by
  refine ⟨by decide, by decide, by decide, by decide⟩

/-- Claim C6 as amended: `Config.parser()` seeds the version flag first and
then adds one argument per bound setting that has a CLI surface (truthy
`cli`, or truthy `nargs` with a name), visiting the settings sorted by
`(section, declaration_order)`; `make_options`, instead of emitting options
in that order, raises `NameError` on the unbound `optparse` at the first
CLI-flagged setting. -/
theorem C6_amended (app : Option String) (inc exc : List String)
    (de ep : Option String) (c : Config)
    (hc : mkConfig moduleReg app inc exc de ep = Except.ok c) :
    c.parserArgs.head? = Option.some versionArg ∧
    List.Pairwise settingPairLe c.emittedSettings ∧
    (∀ n, (∃ a ∈ c.parserArgs.tail, a.dest = Option.some n) ↔
      (∃ s, alLookup c.settings n = Option.some s ∧
        (s.addArgument).isSome = true)) ∧
    make_options moduleReg = Except.error (PyErr.nameError "optparse") := by
  have hms := (mkConfig_ok moduleReg app inc exc de ep c hc).1
  have hinv : ∀ p ∈ c.settings, p.1 = p.2.name :=
    msLoop_keys_name app inc exc moduleReg.knownSettings [] c.settings hms
      (fun p hp => absurd hp (List.not_mem_nil p))
  have hnd : (c.settings.map Prod.fst).Nodup :=
    msLoop_keys_nodup app inc exc moduleReg.knownSettings [] c.settings hms
      (by simp)
  have hsorted : List.Pairwise settingPairLe c.sortedSettings := by
    unfold Config.sortedSettings
    exact List.sorted_insertionSort settingPairLe c.settings
  refine ⟨rfl, ?_, ?_, by decide⟩
  · unfold Config.emittedSettings
    exact List.Pairwise.sublist (List.filter_sublist _) hsorted
  · intro n
    constructor
    · rintro ⟨a, ha, hdest⟩
      simp only [Config.parserArgs, List.tail_cons] at ha
      rcases List.mem_filterMap.mp ha with ⟨p, hp, hpa⟩
      obtain ⟨k, s⟩ := p
      have hd := addArgument_dest s a hpa
      rw [hd] at hdest
      have hsn : s.name = n := Option.some.inj hdest
      have hpmem : (k, s) ∈ c.settings :=
        (List.perm_insertionSort settingPairLe c.settings).mem_iff.mp hp
      have hkey : k = s.name := hinv (k, s) hpmem
      refine ⟨s, ?_, by rw [hpa]; rfl⟩
      refine (alLookup_eq_some_iff_mem c.settings hnd n s).mpr ?_
      rw [← hsn, ← hkey]
      exact hpmem
    · rintro ⟨s, hlk, hsome⟩
      have hmem : (n, s) ∈ c.settings :=
        (alLookup_eq_some_iff_mem c.settings hnd n s).mp hlk
      have hname : n = s.name := hinv (n, s) hmem
      obtain ⟨a, ha⟩ := Option.isSome_iff_exists.mp hsome
      refine ⟨a, ?_, ?_⟩
      · simp only [Config.parserArgs, List.tail_cons]
        refine List.mem_filterMap.mpr ⟨(n, s), ?_, ha⟩
        exact (List.perm_insertionSort settingPairLe c.settings).mem_iff.mpr hmem
      · rw [addArgument_dest s a ha, ← hname]

/-- Witness for C6 as amended, on the unfiltered config: the version flag
comes first, the emitted settings are `(section, order)`-sorted, and the
argument destinations come out in exactly the sorted order. -/
theorem C6_witness :
    defaultConfig.parserArgs.head? = Option.some versionArg ∧
    List.Pairwise settingPairLe defaultConfig.emittedSettings ∧
    parserDests defaultConfig =
      ["config", "debug", "http_proxy", "loglevel", "logevery", "proc_name",
       "daemon", "pidfile", "user", "group", "umask", "workers", "concurrency",
       "max_requests", "timeout", "keepalive"] := by
  have hc : mkConfig moduleReg Option.none [] [] Option.none Option.none =
      Except.ok defaultConfig := by decide
  have h := C6_amended Option.none [] [] Option.none Option.none defaultConfig hc
  exact ⟨h.1, h.2.1, by decide⟩
